import Mathlib

/-!
Verification of the Smart-Guide repository (a Streamlit travel-assistant app).

The repository holds two near-identical copies of an `OpenAIClient` class:
one in `src/openai_helper.py` and one inlined at the top of
`src/streamlit_app.py` (the personas differ slightly).  We embed both
copies, plus the two Streamlit event handlers (`trip_preferences` form
submission and the `send_button` chat handler) of `streamlit_app.py`.

The remote chat-completion service is modelled as a function from the
assembled message list to an outcome: either it raises (carrying the
stringified exception text) or it returns a reply whose `content` field is
an optional string (`none` models Python `None`).
-/

namespace SmartGuide

/-- One entry of the message list sent to the completion API:
a Python dict `{"role": ..., "content": ...}`. -/
structure Message where
  role : String
  content : String
deriving DecidableEq, Repr

/-- Python truthiness of an optional string: `None` and `""` are falsy,
every other string is truthy.  Used for `if context:` and `if not content:`
and `if not self.api_key:` in the source. -/
def pyTruthy : Option String → Bool
  | none => false
  | some s => s != ""

/-- Outcome of the remote `chat.completions.create` call:
either the call raises (with the stringified exception message), or it
returns and `response.choices[0].message.content` is the given optional
string (`none` models a `None` content field). -/
inductive RemoteOutcome where
  | raises (msg : String)
  | returns (content : Option String)
deriving DecidableEq, Repr

/-- `OpenAIClient.__init__` of both files (the credential-resolution part):
`st.secrets["OPENAI_API_KEY"] if "OPENAI_API_KEY" in st.secrets else
os.environ.get("OPENAI_API_KEY")`, then `raise` when the result is falsy.
`secrets` is `none` when the key is absent from the secret store, and
`env` is `none` when the environment variable is unset.  The constructor
performs no remote call: it only stores the key in the client. -/
def client_init (secrets env : Option String) : Except String String :=
  let api_key := if secrets.isSome then secrets else env
  if pyTruthy api_key then
    Except.ok (api_key.getD "")
  else
    Except.error "OpenAI API key not found in environment variables or Streamlit secrets"

namespace OpenaiHelper

/-- The `base_prompt` dict of `src/openai_helper.py`, persona text verbatim
(including the trailing blank and the 12-space indentation of the Python
triple-quoted literal). -/
def base_prompt : Message :=
  ⟨"system",
   "You are a knowledgeable Saudi Arabia tourism expert. \n            Provide detailed recommendations based on the user\x27s preferences.\n            Be specific about locations, activities, and cultural considerations.\n            Keep responses friendly and informative."⟩

/-- `OpenAIClient._create_messages` of `src/openai_helper.py`:
start from `[base_prompt]`, append the context system message when
`context` is truthy, then append the user message. -/
def create_messages (prompt : String) (context : Option String) : List Message :=
  let messages := [base_prompt]
  let messages :=
    if pyTruthy context then
      messages ++ [⟨"system", "Previous context: " ++ context.getD ""⟩]
    else
      messages
  messages ++ [⟨"user", prompt⟩]

/-- `OpenAIClient.generate_response` of `src/openai_helper.py`.
If the remote call raises, the `except` clause returns `(str(e), False)`.
If it returns a falsy content (`None` or `""`), the code raises
`Exception("OpenAI returned an empty response")` inside the same `try`,
which the `except` clause turns into that message paired with `False`.
Otherwise it returns `(content, True)`. -/
def generate_response (remote : List Message → RemoteOutcome)
    (prompt : String) (context : Option String) : String × Bool :=
  match remote (create_messages prompt context) with
  | RemoteOutcome.raises e => (e, false)
  | RemoteOutcome.returns content =>
    if pyTruthy content then
      (content.getD "", true)
    else
      ("OpenAI returned an empty response", false)

end OpenaiHelper

namespace StreamlitApp

/-- The `base_prompt` dict of the client inlined in `src/streamlit_app.py`
(persona text verbatim, with the extra guideline list). -/
def base_prompt : Message :=
  ⟨"system",
   "You are a knowledgeable Saudi Arabia tourism expert. \n            Provide detailed recommendations based on the user\x27s preferences.\n            Be specific about locations, activities, and cultural considerations.\n            Keep responses friendly and informative.\n            \n            Important guidelines:\n            1. Focus on practical recommendations\n            2. Include cultural sensitivity tips\n            3. Suggest specific places and activities\n            4. Mention estimated costs when relevant\n            5. Include safety tips and best times to visit"⟩

/-- `OpenAIClient._create_messages` of `src/streamlit_app.py`
(same logic as the helper-file copy, different persona). -/
def create_messages (prompt : String) (context : Option String) : List Message :=
  let messages := [base_prompt]
  let messages :=
    if pyTruthy context then
      messages ++ [⟨"system", "Previous context: " ++ context.getD ""⟩]
    else
      messages
  messages ++ [⟨"user", prompt⟩]

/-- `OpenAIClient.generate_response` of `src/streamlit_app.py`
(same logic as the helper-file copy). -/
def generate_response (remote : List Message → RemoteOutcome)
    (prompt : String) (context : Option String) : String × Bool :=
  match remote (create_messages prompt context) with
  | RemoteOutcome.raises e => (e, false)
  | RemoteOutcome.returns content =>
    if pyTruthy content then
      (content.getD "", true)
    else
      ("OpenAI returned an empty response", false)

/-- One entry of `st.session_state.chat_history`:
`{"role": ..., "content": ..., "timestamp": ...}`. -/
structure ChatMessage where
  role : String
  content : String
  timestamp : String
deriving DecidableEq, Repr

/-- The rendering `f"{msg['role']}: {msg['content']}"` used when building
the context string (line 201 of `src/streamlit_app.py`). -/
def render_message (m : ChatMessage) : String :=
  m.role ++ ": " ++ m.content

/-- Lines 200-201 of `src/streamlit_app.py`:
`recent_messages = st.session_state.chat_history[-5:]` followed by
`context = "\n".join(f"{msg['role']}: {msg['content']}" for ...)`.
Python `xs[-5:]` is the whole list when it has fewer than 5 elements,
which `List.drop (len - 5)` reproduces via truncated subtraction. -/
def build_context (history : List ChatMessage) : String :=
  let recent_messages := history.drop (history.length - 5)
  String.intercalate "\n" (recent_messages.map render_message)

/-- The fields read from the `trip_preferences` form
(`location`, `budget`, `currency`, `trip_type`, `family`, `duration`). -/
structure TripPreferences where
  location : String
  budget : Nat
  currency : String
  trip_type : String
  family : String
  duration : Nat
deriving DecidableEq, Repr

/-- The `initial_prompt` f-string of lines 140-153 of
`src/streamlit_app.py`, whitespace verbatim. -/
def initial_prompt (p : TripPreferences) : String :=
  "Please provide a personalized travel recommendation for Saudi Arabia based on these preferences:\n                Location: " ++ p.location
  ++ "\n                Budget: " ++ toString p.budget ++ " " ++ p.currency
  ++ "\n                Trip Type: " ++ p.trip_type
  ++ "\n                Family: " ++ p.family
  ++ "\n                Duration: " ++ toString p.duration ++ " days\n                \n                Please include:\n                1. Suggested itinerary\n                2. Accommodation recommendations\n                3. Must-visit attractions\n                4. Local customs and etiquette\n                5. Budget breakdown\n                6. Travel tips"

/-- The `if submitted:` branch of the `trip_preferences` form handler
(lines 138-165 of `src/streamlit_app.py`): call `generate_response` on the
synthesized initial prompt with no context; on success append the
assistant reply (timestamped `now`) to the chat history, on failure leave
the history unchanged (an error banner is shown instead). -/
def trip_form_handler (remote : List Message → RemoteOutcome)
    (prefs : TripPreferences) (now : String)
    (history : List ChatMessage) : List ChatMessage :=
  let r := generate_response remote (initial_prompt prefs) none
  if r.2 then
    history ++ [⟨"assistant", r.1, now⟩]
  else
    history

/-- The `send_button` handler (lines 189-213 of `src/streamlit_app.py`):
when `user_input` is truthy, append the user message (timestamp `now1`),
build the context from the last 5 entries of the updated history, call
`generate_response`, and on success append the assistant reply
(timestamp `now2`); on failure only the user message remains appended.
When `user_input` is empty nothing happens. -/
def send_handler (remote : List Message → RemoteOutcome)
    (user_input : String) (now1 now2 : String)
    (history : List ChatMessage) : List ChatMessage :=
  if user_input != "" then
    let h := history ++ [⟨"user", user_input, now1⟩]
    let context := build_context h
    let r := generate_response remote user_input (some context)
    if r.2 then
      h ++ [⟨"assistant", r.1, now2⟩]
    else
      h
  else
    history

end StreamlitApp

/-- C1: for every prompt and every context, if the remote chat-completion
call raises, `generate_response` (in both copies of the client) returns the
pair (stringified error message, `false`); being a total function into
`String × Bool`, it never propagates the failure and every call returns a
(string, bool) tuple. -/
theorem C1_failure_is_caught (remote : List Message → RemoteOutcome)
    (prompt : String) (context : Option String) (e : String) :
    (remote (OpenaiHelper.create_messages prompt context) = RemoteOutcome.raises e →
      OpenaiHelper.generate_response remote prompt context = (e, false)) ∧
    (remote (StreamlitApp.create_messages prompt context) = RemoteOutcome.raises e →
      StreamlitApp.generate_response remote prompt context = (e, false)) := by
  constructor
  · intro h
    unfold OpenaiHelper.generate_response
    rw [h]
  · intro h
    unfold StreamlitApp.generate_response
    rw [h]

/-- Witness for C1: a remote call that raises with message "boom" makes
both clients return ("boom", false). -/
theorem C1_failure_is_caught_witness :
    OpenaiHelper.generate_response (fun _ => RemoteOutcome.raises "boom") "hi" none
      = ("boom", false) ∧
    StreamlitApp.generate_response (fun _ => RemoteOutcome.raises "boom") "hi" none
      = ("boom", false) :=
  ⟨(C1_failure_is_caught (fun _ => RemoteOutcome.raises "boom") "hi" none "boom").1 rfl,
   (C1_failure_is_caught (fun _ => RemoteOutcome.raises "boom") "hi" none "boom").2 rfl⟩

/-- C2: for every prompt and every non-empty context string, the message
list built by `_create_messages` (in both copies of the client) is exactly
the 3-entry list: persona system message, then a system message whose
content is `"Previous context: "` followed by the context string, then the
user message. -/
theorem C2_nonempty_context_three_messages (prompt context : String)
    (h : context ≠ "") :
    OpenaiHelper.create_messages prompt (some context)
      = [OpenaiHelper.base_prompt,
         ⟨"system", "Previous context: " ++ context⟩,
         ⟨"user", prompt⟩] ∧
    StreamlitApp.create_messages prompt (some context)
      = [StreamlitApp.base_prompt,
         ⟨"system", "Previous context: " ++ context⟩,
         ⟨"user", prompt⟩] := by
  have ht : pyTruthy (some context) = true := by
    simp [pyTruthy, h]
  constructor
  · simp [OpenaiHelper.create_messages, ht]
  · simp [StreamlitApp.create_messages, ht]

/-- Witness for C2 at prompt "hello", context "prev". -/
theorem C2_nonempty_context_three_messages_witness :
    OpenaiHelper.create_messages "hello" (some "prev")
      = [OpenaiHelper.base_prompt,
         ⟨"system", "Previous context: prev"⟩,
         ⟨"user", "hello"⟩] ∧
    StreamlitApp.create_messages "hello" (some "prev")
      = [StreamlitApp.base_prompt,
         ⟨"system", "Previous context: prev"⟩,
         ⟨"user", "hello"⟩] :=
  C2_nonempty_context_three_messages "hello" "prev" (by decide)

/-- C3: for every prompt, with context absent the message list built by
`_create_messages` (in both copies of the client) is exactly the 2-entry
list: persona system message, then the user message. -/
theorem C3_absent_context_two_messages (prompt : String) :
    OpenaiHelper.create_messages prompt none
      = [OpenaiHelper.base_prompt, ⟨"user", prompt⟩] ∧
    StreamlitApp.create_messages prompt none
      = [StreamlitApp.base_prompt, ⟨"user", prompt⟩] := by
  constructor
  · simp [OpenaiHelper.create_messages, pyTruthy]
  · simp [StreamlitApp.create_messages, pyTruthy]

/-- C4: for every prompt and every context, the last entry of the message
list built by `_create_messages` (in both copies of the client) has role
"user" and content exactly the prompt argument. -/
theorem C4_last_message_is_user_prompt (prompt : String)
    (context : Option String) :
    (OpenaiHelper.create_messages prompt context).getLast?
      = some ⟨"user", prompt⟩ ∧
    (StreamlitApp.create_messages prompt context).getLast?
      = some ⟨"user", prompt⟩ := by
  constructor
  · unfold OpenaiHelper.create_messages
    cases pyTruthy context <;> simp [List.getLast?]
  · unfold StreamlitApp.create_messages
    cases pyTruthy context <;> simp [List.getLast?]

/-- C10: for every prompt, `_create_messages` with the empty string as
context produces exactly the same list as with context absent (in both
copies of the client): Python truthiness treats `""` as no context. -/
theorem C10_empty_context_like_absent (prompt : String) :
    OpenaiHelper.create_messages prompt (some "")
      = OpenaiHelper.create_messages prompt none ∧
    StreamlitApp.create_messages prompt (some "")
      = StreamlitApp.create_messages prompt none := by
  constructor
  · simp [OpenaiHelper.create_messages, pyTruthy]
  · simp [StreamlitApp.create_messages, pyTruthy]

/-- C5: for every prompt and context, if the remote call returns but the
reply body is empty (`""`) or absent (`None`), `generate_response` (in
both copies of the client) returns the non-empty error message
"OpenAI returned an empty response" paired with `false`; moreover neither
client ever returns the pair (empty string, `true`). -/
theorem C5_empty_body_is_error (remote : List Message → RemoteOutcome)
    (prompt : String) (context : Option String) (content : Option String) :
    (remote (OpenaiHelper.create_messages prompt context)
        = RemoteOutcome.returns content → pyTruthy content = false →
      OpenaiHelper.generate_response remote prompt context
        = ("OpenAI returned an empty response", false)) ∧
    (remote (StreamlitApp.create_messages prompt context)
        = RemoteOutcome.returns content → pyTruthy content = false →
      StreamlitApp.generate_response remote prompt context
        = ("OpenAI returned an empty response", false)) ∧
    ("OpenAI returned an empty response" : String) ≠ "" ∧
    OpenaiHelper.generate_response remote prompt context ≠ ("", true) ∧
    StreamlitApp.generate_response remote prompt context ≠ ("", true) := by
  refine ⟨?_, ?_, by decide, ?_, ?_⟩
  · intro h hf
    unfold OpenaiHelper.generate_response
    rw [h]
    simp [hf]
  · intro h hf
    unfold StreamlitApp.generate_response
    rw [h]
    simp [hf]
  · unfold OpenaiHelper.generate_response
    cases hr : remote (OpenaiHelper.create_messages prompt context) with
    | raises e => simp
    | returns c =>
      cases c with
      | none => simp [pyTruthy]
      | some s =>
        by_cases hs : s = ""
        · simp [pyTruthy, hs]
        · simp [pyTruthy, hs]
  · unfold StreamlitApp.generate_response
    cases hr : remote (StreamlitApp.create_messages prompt context) with
    | raises e => simp
    | returns c =>
      cases c with
      | none => simp [pyTruthy]
      | some s =>
        by_cases hs : s = ""
        · simp [pyTruthy, hs]
        · simp [pyTruthy, hs]

/-- Witness for C5: a remote call returning an empty body makes both
clients return the synthesized error with flag false. -/
theorem C5_empty_body_is_error_witness :
    OpenaiHelper.generate_response (fun _ => RemoteOutcome.returns (some "")) "hi" none
      = ("OpenAI returned an empty response", false) ∧
    StreamlitApp.generate_response (fun _ => RemoteOutcome.returns none) "hi" none
      = ("OpenAI returned an empty response", false) :=
  ⟨(C5_empty_body_is_error (fun _ => RemoteOutcome.returns (some "")) "hi" none
      (some "")).1 rfl (by decide),
   (C5_empty_body_is_error (fun _ => RemoteOutcome.returns none) "hi" none
      none).2.1 rfl (by decide)⟩

/-- C6: client construction checks the secret store first and falls back
to the environment variable only when the key is absent from the store;
when both sources yield no value (absent or empty) construction fails with
the configuration error, and no remote call is attempted (`client_init`
does not consult any remote behaviour at all). -/
theorem C6_credential_resolution (secrets env : Option String) :
    (pyTruthy secrets = false → pyTruthy env = false →
      client_init secrets env
        = Except.error "OpenAI API key not found in environment variables or Streamlit secrets") ∧
    (∀ v : String, v ≠ "" → client_init (some v) env = Except.ok v) ∧
    (∀ w : String, w ≠ "" → client_init none (some w) = Except.ok w) := by
  refine ⟨?_, ?_, ?_⟩
  · intro hs he
    cases secrets with
    | none => simp [client_init, he]
    | some s =>
      have hs' : s = "" := by
        by_contra hne
        simp [pyTruthy, hne] at hs
      simp [client_init, pyTruthy, hs']
  · intro v hv
    simp [client_init, pyTruthy, hv]
  · intro w hw
    simp [client_init, pyTruthy, hw]

/-- Witness for C6: with both sources missing construction fails; with the
secret store populated it wins over the environment; with only the
environment populated the environment value is used. -/
theorem C6_credential_resolution_witness :
    client_init none none
      = Except.error "OpenAI API key not found in environment variables or Streamlit secrets" ∧
    client_init (some "sk-store") (some "sk-env") = Except.ok "sk-store" ∧
    client_init none (some "sk-env") = Except.ok "sk-env" :=
  ⟨(C6_credential_resolution none none).1 (by decide) (by decide),
   (C6_credential_resolution (some "sk-store") (some "sk-env")).2.1 "sk-store" (by decide),
   (C6_credential_resolution none (some "sk-env")).2.2 "sk-env" (by decide)⟩

/-- C7: when the chat history holds 7 entries at the moment the context is
built (the `send_button` handler builds it right after appending the new
user message), the context string is exactly the last 5 of those 7
entries, in original chronological order, each rendered as
`"role: content"` and joined with newline separators. -/
theorem C7_context_window_last_five
    (m1 m2 m3 m4 m5 m6 m7 : StreamlitApp.ChatMessage) :
    StreamlitApp.build_context [m1, m2, m3, m4, m5, m6, m7]
      = String.intercalate "\n"
          (List.map StreamlitApp.render_message [m3, m4, m5, m6, m7]) := by
  rfl

/-- C8: the chat history is append-only: both session operations (the
preferences-form handler and the chat-send handler, with any remote
outcome, successful or failed) either leave the history unchanged or
append entries at its end, so every existing entry survives unedited. -/
theorem C8_history_append_only (remote : List Message → RemoteOutcome)
    (prefs : StreamlitApp.TripPreferences) (now : String)
    (u t1 t2 : String) (history : List StreamlitApp.ChatMessage) :
    (∃ s, StreamlitApp.trip_form_handler remote prefs now history = history ++ s) ∧
    (∃ s, StreamlitApp.send_handler remote u t1 t2 history = history ++ s) := by
  constructor
  · by_cases h : (StreamlitApp.generate_response remote
        (StreamlitApp.initial_prompt prefs) none).2 = true
    · exact ⟨[⟨"assistant",
          (StreamlitApp.generate_response remote (StreamlitApp.initial_prompt prefs) none).1,
          now⟩], by simp [StreamlitApp.trip_form_handler, h]⟩
    · exact ⟨[], by simp [StreamlitApp.trip_form_handler, h]⟩
  · by_cases hu : (u != "") = true
    · by_cases h : (StreamlitApp.generate_response remote u
          (some (StreamlitApp.build_context (history ++ [⟨"user", u, t1⟩])))).2 = true
      · refine ⟨[⟨"user", u, t1⟩,
            ⟨"assistant",
             (StreamlitApp.generate_response remote u
               (some (StreamlitApp.build_context (history ++ [⟨"user", u, t1⟩])))).1,
             t2⟩], ?_⟩
        simp [StreamlitApp.send_handler, hu, h]
      · exact ⟨[⟨"user", u, t1⟩], by simp [StreamlitApp.send_handler, hu, h]⟩
    · exact ⟨[], by simp [StreamlitApp.send_handler, hu]⟩

/-- A concrete `TripPreferences` value used to exercise the form handler. -/
def samplePrefs : StreamlitApp.TripPreferences :=
  ⟨"Riyadh", 1000, "SAR", "Religious", "2 adults, 1 child", 3⟩

/-- Counterexample to C9 as stated: in the preferences-form path a user
submission appends no user `ChatMessage` at all — on a failed call the
history stays empty, and on a successful call the only appended entry has
role "assistant".  So a `ChatMessage` is NOT created on every user
submission in both interaction paths. -/
theorem C9_counterexample :
    StreamlitApp.trip_form_handler (fun _ => RemoteOutcome.raises "network down")
      samplePrefs "2024-01-01T00:00:00" [] = [] ∧
    (StreamlitApp.trip_form_handler (fun _ => RemoteOutcome.returns (some "Itinerary"))
      samplePrefs "2024-01-01T00:00:00" []).map StreamlitApp.ChatMessage.role
      = ["assistant"] := by
  constructor
  · rfl
  · rfl

/-- C9 amended: in the chat-send path a user `ChatMessage` is appended on
every non-empty submission and an assistant `ChatMessage` on every
successful reply; in the preferences-form path no user `ChatMessage` is
recorded — only the assistant reply is appended, and only when the call
succeeds. -/
theorem C9_message_creation_amended (remote : List Message → RemoteOutcome)
    (prefs : StreamlitApp.TripPreferences) (now : String)
    (history : List StreamlitApp.ChatMessage) (u t1 t2 : String) :
    (StreamlitApp.trip_form_handler remote prefs now history
      = history ++
          (if (StreamlitApp.generate_response remote (StreamlitApp.initial_prompt prefs) none).2
           then [⟨"assistant",
                 (StreamlitApp.generate_response remote (StreamlitApp.initial_prompt prefs) none).1,
                 now⟩]
           else [])) ∧
    (u ≠ "" →
      StreamlitApp.send_handler remote u t1 t2 history
        = history ++ ⟨"user", u, t1⟩ ::
            (if (StreamlitApp.generate_response remote u
                  (some (StreamlitApp.build_context (history ++ [⟨"user", u, t1⟩])))).2
             then [⟨"assistant",
                   (StreamlitApp.generate_response remote u
                     (some (StreamlitApp.build_context (history ++ [⟨"user", u, t1⟩])))).1,
                   t2⟩]
             else [])) := by
  constructor
  · by_cases h : (StreamlitApp.generate_response remote
        (StreamlitApp.initial_prompt prefs) none).2 = true
    · simp [StreamlitApp.trip_form_handler, h]
    · simp [StreamlitApp.trip_form_handler, h]
  · intro hu
    have hu' : (u != "") = true := by simp [hu]
    by_cases h : (StreamlitApp.generate_response remote u
        (some (StreamlitApp.build_context (history ++ [⟨"user", u, t1⟩])))).2 = true
    · simp [StreamlitApp.send_handler, hu', h]
    · simp [StreamlitApp.send_handler, hu', h]

/-- Witness for the amended C9: with a remote that replies "ok", the form
handler appends exactly the assistant reply and the send handler appends
the user message followed by the assistant reply. -/
theorem C9_message_creation_amended_witness :
    StreamlitApp.trip_form_handler (fun _ => RemoteOutcome.returns (some "ok"))
      samplePrefs "t0" [] = [⟨"assistant", "ok", "t0"⟩] ∧
    StreamlitApp.send_handler (fun _ => RemoteOutcome.returns (some "ok"))
      "hi" "t1" "t2" [] = [⟨"user", "hi", "t1"⟩, ⟨"assistant", "ok", "t2"⟩] := by
  have h := C9_message_creation_amended (fun _ => RemoteOutcome.returns (some "ok"))
    samplePrefs "t0" [] "hi" "t1" "t2"
  constructor
  · rw [h.1]
    rfl
  · rw [h.2 (by decide)]
    rfl

end SmartGuide
